import Mathlib

/-!
Shallow embedding of the command-resolution core of the `aureus` server
(src/server/src): the spatial data model (zones, tiles, transitions,
positions), the containment data used by the executors, and the executors
for take, movement, enter, teleport, look and map, translated from the
Rust source.  Machine integers (`i32` coordinates, `i16` role bitmasks)
are modelled as `Int`; none of the verified properties involve overflow.
Rust `String` operations that only ever see ASCII data in this code base
(`to_lowercase`, `trim`) are modelled by ASCII-level functions on the
character list of a `String`.
-/

/-- Client identifier (`ClientId` from bevy_nest), modelled as a natural. -/
abbrev ClientId : Type := Nat

/-- ECS entity identifier (`Entity` from bevy), modelled as a natural. -/
abbrev EntityId : Type := Nat

/-- bevy's `IVec3`: 3D integer coordinates (`i32` modelled as `Int`). -/
structure IVec3 where
  x : Int
  y : Int
  z : Int
deriving DecidableEq, Repr

/-- Componentwise addition, as used for `player_position.coords + offset`. -/
def IVec3.add (a b : IVec3) : IVec3 := ⟨a.x + b.x, a.y + b.y, a.z + b.z⟩

instance : Add IVec3 := ⟨IVec3.add⟩

/-- The `Zone` enum from `spatial/components.rs` (file not under src/; its
two variants `Movement` and `Void` are taken from the `teleport` match and
the tests). -/
inductive Zone where
  | movement
  | void
deriving DecidableEq, Repr

/-- The `Position` component: a zone plus integer 3D coordinates. -/
structure Position where
  zone : Zone
  coords : IVec3
deriving DecidableEq, Repr

/-- The `Sprite` component from `visual/components.rs` (not under src/);
the executors only read its `character` string field. -/
structure Sprite where
  character : String
deriving DecidableEq, Repr

/-- Modelled from the spec: the `Tile` component's descriptive payload
(`spatial/components.rs` is not under src/).  The executors never inspect
it; it is only passed to the rendering contract `view_for_tile`. -/
structure TileData where
  name : String
  description : String
deriving DecidableEq, Repr

/-- The `Item` component (`items/components.rs` is not under src/; the
fields `name`, `short_name` and `tags` are exactly those read by
`items/commands/take.rs`). -/
structure Item where
  name : String
  short_name : String
  tags : List String
deriving DecidableEq, Repr

/-- The `Transition` component: a tag list plus a destination zone and
coordinates, exactly the fields read by the enter executors. -/
structure Transition where
  tags : List String
  zone : Zone
  coords : IVec3
deriving DecidableEq, Repr

/-- The `CharacterConfig` from `player/config.rs` (not under src/): the
`brief` verbosity flag read by the movement executor. -/
structure CharacterConfig where
  brief : Bool
deriving DecidableEq, Repr

/-- The `Character` component from `player/components.rs`. -/
structure Character where
  id : Int
  name : String
  role : Int
  config : CharacterConfig
deriving DecidableEq, Repr

/-- `Character::can` from `player/components.rs`: the role bitmask carries
every bit of `permission` (`self.role & permission == permission`).
`i16` bitwise AND on in-range values coincides with `Int.land`. -/
def Character.can (c : Character) (permission : Int) : Bool :=
  Int.land c.role permission == permission

/-- ASCII lowercasing of one character, modelling what Rust
`str::to_lowercase` does on the ASCII-only strings of this code base. -/
def lowerChar (c : Char) : Char :=
  if 'A' ≤ c ∧ c ≤ 'Z' then Char.ofNat (c.toNat + 32) else c

/-- Model of Rust `str::to_lowercase` restricted to ASCII. -/
def lowercase (s : String) : String := ⟨s.data.map lowerChar⟩

/-- ASCII whitespace test, for the model of Rust `str::trim`. -/
def isWsChar (c : Char) : Bool :=
  c = ' ' || c = '\t' || c = '\n' || c = '\r'

/-- Model of Rust `str::trim`: drop ASCII whitespace from both ends. -/
def trimStr (s : String) : String :=
  ⟨((s.data.dropWhile isWsChar).reverse.dropWhile isWsChar).reverse⟩

/-- `sprite.character.chars().next().unwrap_or(' ')` from the map
executor: the first character of a string, or a default. -/
def headCharOr (s : String) (d : Char) : Char :=
  match s.data with
  | [] => d
  | c :: _ => c

/-- Modelled from the spec: the rendering contract of
`spatial/utils.rs::view_for_tile` (the function body is not under src/;
the spec fixes only that it deterministically turns (tile, sprite, brief)
into descriptive text). -/
def view_for_tile (t : TileData) (s : Sprite) (brief : Bool) : String :=
  if brief then s.character ++ " " ++ t.name
  else s.character ++ " " ++ t.name ++ "\n" ++ t.description

/-- Modelled from the spec: the two-argument `view_for_tile` called by the
revision of `look` in `spatial/commands.rs` (body not under src/). -/
def view_for_tile_basic (t : TileData) (s : Sprite) : String :=
  s.character ++ " " ++ t.name ++ "\n" ++ t.description

/-- Modelled from the spec: the `Display` text of a `Zone`, used by the
map executor's `format!("{}\n{}", zone, display)` (impl not under src/). -/
def zoneToString (z : Zone) : String :=
  match z with
  | Zone.movement => "Movement"
  | Zone.void => "Void"

/-- `spatial/utils.rs::offset_for_direction`, translated clause by
clause. -/
def offset_for_direction (direction : String) : Option IVec3 :=
  if direction = "north" ∨ direction = "n" then some ⟨0, -1, 0⟩
  else if direction = "northeast" ∨ direction = "ne" then some ⟨1, -1, 0⟩
  else if direction = "east" ∨ direction = "e" then some ⟨1, 0, 0⟩
  else if direction = "southeast" ∨ direction = "se" then some ⟨1, 1, 0⟩
  else if direction = "south" ∨ direction = "s" then some ⟨0, 1, 0⟩
  else if direction = "southwest" ∨ direction = "sw" then some ⟨-1, 1, 0⟩
  else if direction = "west" ∨ direction = "w" then some ⟨-1, 0, 0⟩
  else if direction = "northwest" ∨ direction = "nw" then some ⟨-1, -1, 0⟩
  else if direction = "up" ∨ direction = "u" then some ⟨0, 0, 1⟩
  else if direction = "down" ∨ direction = "d" then some ⟨0, 0, -1⟩
  else none

/-! ## Take executor (`items/commands/take.rs`) -/

/-- Target extraction of `handle_take`: the `target` capture is trimmed
and lowercased (`m.as_str().trim().to_lowercase()`). -/
def parseTakeTarget (raw : String) : String := lowercase (trimStr raw)

/-- Target extraction of `parse_enter` (`spatial/commands/enter.rs`): the
capture is trimmed only (`m.as_str().trim().to_string()`). -/
def parseEnterTarget (raw : String) : String := trimStr raw

/-- The state read and written by the `take` system, after the requester
has been resolved: the children of the requester's tile in containment
iteration order, the `Query<(Entity, &Item), With<CanTake>>` result (an
entity appears here exactly when it is an `Item` carrying `CanTake`), and
the children of the requester's inventory. -/
structure TakeWorld where
  tileChildren : List EntityId
  itemsQuery : List (EntityId × Item)
  invChildren : List EntityId
deriving DecidableEq

/-- The match predicate of take's filter:
`item.name.to_lowercase() == *target || item.short_name.to_lowercase()
== *target || item.tags.contains(target)`. -/
def takeMatch (item : Item) (target : String) : Bool :=
  lowercase item.name == target
    || lowercase item.short_name == target
    || item.tags.contains target

/-- `items_found` of the take system: iterate the tile's children, keep
those that the item query resolves, then filter by `takeMatch`. -/
def takeItemsFound (w : TakeWorld) (target : String) : List (EntityId × Item) :=
  (w.tileChildren.filterMap fun s =>
      (w.itemsQuery.find? fun e => e.1 == s).map fun e => (s, e.2)).filter
    fun e => takeMatch e.2 target

/-- Modelled from the spec: `items/utils.rs::item_name_list` (not under
src/).  Spec §4.4 step 6: group the moved items by name, render `a NAME`
for a group of one and `COUNT NAMEs` otherwise, and join the groups with
commas and a final `and`. -/
def naturalJoin : List String → String
  | [] => ""
  | [a] => a
  | [a, b] => a ++ " and " ++ b
  | a :: rest => a ++ ", " ++ naturalJoin rest

/-- Names deduplicated in first-occurrence order (the grouping key list). -/
def dedupNames (names : List String) : List String :=
  names.foldl (fun acc n => if acc.contains n then acc else acc ++ [n]) []

/-- One group's phrase: `a NAME` if the name occurs once among the moved
items, else `COUNT NAMEs`. -/
def groupPhrase (names : List String) (n : String) : String :=
  let c := (names.filter fun m => m == n).length
  if c = 1 then "a " ++ n else toString c ++ " " ++ n ++ "s"

/-- Modelled from the spec: the full `item_name_list` composition. -/
def item_name_list (names : List String) : String :=
  naturalJoin ((dedupNames names).map (groupPhrase names))

/-- One `take` command processed by the `take` system, given the resolved
requester state: filter the tile's children to matching takable items,
truncate to one when `all` is absent, reparent each kept entity from the
tile to the inventory, and compose the response. -/
def takeRun (w : TakeWorld) (target : String) (all : Bool) : TakeWorld × String :=
  let found := takeItemsFound w target
  let kept := if all then found else found.take 1
  let keptIds := kept.map fun e => e.1
  let w' : TakeWorld :=
    { w with
      tileChildren := w.tileChildren.filter fun s => !(keptIds.contains s)
      invChildren := w.invChildren ++ keptIds }
  let names := kept.map fun e => e.2.name
  let rendered := item_name_list names
  if rendered = "" then (w', "You don't see a " ++ target ++ " here.")
  else (w', "You take " ++ rendered ++ ".")

/-! ## Movement executor (`spatial/commands/movement.rs`) -/

/-- A player row of the movement system's
`Query<(Entity, &Client, &Character, &Parent)>`. -/
structure MovPlayer where
  entity : EntityId
  client : ClientId
  character : Character
  parent : EntityId
deriving DecidableEq

/-- A tile row of the movement system's
`Query<(Entity, &Position, &Tile, &Sprite)>`. -/
structure MovTile where
  entity : EntityId
  position : Position
  tile : TileData
  sprite : Sprite
deriving DecidableEq

/-- The state read and written by the movement system. -/
structure MovWorld where
  players : List MovPlayer
  tiles : List MovTile
deriving DecidableEq

/-- `players.iter_mut().find(|(_, c, _, _)| c.id == command.from)`. -/
def movFindPlayer (w : MovWorld) (cid : ClientId) : Option MovPlayer :=
  w.players.find? fun p => p.client == cid

/-- `tiles.get(parent.get())`: resolve a tile row by its entity id. -/
def movTileByEntity (w : MovWorld) (e : EntityId) : Option MovTile :=
  w.tiles.find? fun t => t.entity == e

/-- `tiles.iter().find(|(_, p, _, _)| p.zone == .. && p.coords == ..)`. -/
def movTileAt (w : MovWorld) (zone : Zone) (coords : IVec3) : Option MovTile :=
  w.tiles.find? fun t => decide (t.position.zone = zone ∧ t.position.coords = coords)

/-- `bevy.entity(player).set_parent(target)`: reparent the player entity. -/
def movSetParent (w : MovWorld) (player : EntityId) (target : EntityId) : MovWorld :=
  { w with
    players := w.players.map fun q =>
      if q.entity == player then { q with parent := target } else q }

/-- One `Movement(direction)` command processed by the movement system:
resolve the player, their parent tile, the direction offset, then the
destination tile at (zone, coords + offset); absent destination answers
with fixed text and changes nothing, present destination reparents the
player and answers with the rendered view. -/
def movementRun (w : MovWorld) (cid : ClientId) (direction : String) :
    MovWorld × List (ClientId × String) :=
  match movFindPlayer w cid with
  | none => (w, [])
  | some p =>
    match movTileByEntity w p.parent with
    | none => (w, [])
    | some ptile =>
      match offset_for_direction direction with
      | none => (w, [])
      | some offset =>
        match movTileAt w ptile.position.zone (ptile.position.coords + offset) with
        | none => (w, [(cid, "You can't go that way.")])
        | some dest =>
          (movSetParent w p.entity dest.entity,
            [(cid, view_for_tile dest.tile dest.sprite p.character.config.brief)])

/-! ## Enter executor (`spatial/commands/enter.rs`) -/

/-- A tile row of the enter system's
`Query<(&Position, &Tile, &Sprite, Option<&Children>), Without<Client>>`. -/
structure EnterTile where
  position : Position
  tile : TileData
  sprite : Sprite
  children : Option (List EntityId)
deriving DecidableEq

/-- The state read and written by the enter system: player positions,
tile rows, and the `Query<&Transition, Without<Client>>` result keyed by
entity id. -/
structure EnterWorld where
  players : List (ClientId × Position)
  tiles : List EnterTile
  transQuery : List (EntityId × Transition)
deriving DecidableEq

/-- `tiles.iter().find(|(p, ..)| p.zone == .. && p.coords == ..)`. -/
def enterTileAt (w : EnterWorld) (zone : Zone) (coords : IVec3) : Option EnterTile :=
  w.tiles.find? fun t => decide (t.position.zone = zone ∧ t.position.coords = coords)

/-- The transitions owned by a tile: map its `Children` through the
transition query, an absent `Children` giving the empty list
(`siblings.map(..collect..).unwrap_or_else(|| vec![])`). -/
def transitionsOf (w : EnterWorld) (tile : EnterTile) : List Transition :=
  (tile.children.map fun cs =>
      cs.filterMap fun c => (w.transQuery.find? fun e => e.1 == c).map fun e => e.2).getD []

/-- `transitions.iter().find(|t| target.map_or(true, |tag|
t.tags.contains(tag)))`: with no target the first transition wins, with a
target the first transition whose tag list contains it verbatim. -/
def enterSelect (ts : List Transition) (target : Option String) : Option Transition :=
  ts.find? fun tr =>
    match target with
    | none => true
    | some tag => tr.tags.contains tag

/-- `player_position.zone = position.zone; player_position.coords =
position.coords` for the requester. -/
def enterSetPos (w : EnterWorld) (cid : ClientId) (pos : Position) : EnterWorld :=
  { w with
    players := w.players.map fun p => if p.1 == cid then (p.1, pos) else p }

/-- One `Enter(target)` command processed by the enter system. -/
def enterRun (w : EnterWorld) (cid : ClientId) (target : Option String) :
    EnterWorld × List (ClientId × String) :=
  match w.players.find? fun p => p.1 == cid with
  | none => (w, [])
  | some pr =>
    match enterTileAt w pr.2.zone pr.2.coords with
    | none => (w, [])
    | some tile =>
      let ts := transitionsOf w tile
      if ts.isEmpty then (w, [(cid, "There is nowhere to enter from here.")])
      else
        match enterSelect ts target with
        | none => (w, [(cid, "Could not find entrance.")])
        | some tr =>
          match enterTileAt w tr.zone tr.coords with
          | none => (w, [])
          | some dest =>
            (enterSetPos w cid dest.position,
              [(cid, view_for_tile dest.tile dest.sprite false)])

/-! ## Teleport executor (`spatial/commands.rs::teleport`) -/

/-- The zone resolution of teleport's
`match region { "movement" => Zone::Movement, "void" => Zone::Void,
_ => Zone::Void }`. -/
def zoneForName (region : String) : Zone :=
  match region with
  | "movement" => Zone.movement
  | "void" => Zone.void
  | _ => Zone.void

/-- The body of one teleport command after the regex has matched, given
the resolved requester (`teleMask` is `permissions::TELEPORT`, whose
numeric value lives outside src/): an unauthorized character changes
nothing; otherwise `region != "here"` reassigns the zone through
`zoneForName` and the coordinates are set unconditionally.  The system
has no `Outbox` writer, so the response component is always `none`. -/
def teleportRun (teleMask : Int) (c : Character) (pos : Position)
    (region : String) (x y z : Int) : Position × Option String :=
  if !(c.can teleMask) then (pos, none)
  else
    ({ zone := if region ≠ "here" then zoneForName region else pos.zone,
       coords := ⟨x, y, z⟩ }, none)

/-! ## Look executor (`spatial/commands.rs::look`), with its per-tick
loop.  In the source the failure arms of the two `let .. else` blocks
are `return;`, which exits the whole system function, not `continue`. -/

/-- A joined row of the look system's reads: `tile_map.get(zone, coords)`
composed with `tiles.get` (`Query<(&Tile, &Sprite)>`). -/
structure LookTile where
  zone : Zone
  coords : IVec3
  tile : TileData
  sprite : Sprite
deriving DecidableEq

/-- The state read by the look system. -/
structure LookWorld where
  players : List (ClientId × Position)
  tiles : List LookTile
deriving DecidableEq

/-- `tile_map.get(player_position.zone, player_position.coords)
.and_then(|e| tiles.get(*e).ok())`. -/
def lookTileAt (w : LookWorld) (zone : Zone) (coords : IVec3) :
    Option (TileData × Sprite) :=
  (w.tiles.find? fun t => decide (t.zone = zone ∧ t.coords = coords)).map
    fun t => (t.tile, t.sprite)

/-- The look system's drain of one tick's queued `look` messages, in
arrival order (each element is the sending client's id).  A failed player
or tile lookup is translated exactly as the source has it: `return;`
ends the whole drain, so nothing after it is processed this tick. -/
def lookLoop (w : LookWorld) : List ClientId → List (ClientId × String)
  | [] => []
  | cid :: rest =>
    match w.players.find? fun p => p.1 == cid with
    | none => []
    | some pr =>
      match lookTileAt w pr.2.zone pr.2.coords with
      | none => []
      | some ts => (pr.1, view_for_tile_basic ts.1 ts.2) :: lookLoop w rest

/-! ## Map executor (`spatial/commands.rs::map`) -/

/-- A row of the map system's reads: `tile_map` joined with
`Query<&Sprite, With<Tile>>`. -/
structure MapTile where
  zone : Zone
  coords : IVec3
  sprite : Sprite
deriving DecidableEq

/-- The state read by the map system. -/
structure MapWorld where
  tiles : List MapTile
deriving DecidableEq

/-- `tile_map.get(zone, coords).and_then(|e| tiles.get(*e).ok())` for the
map system. -/
def mapTileAt (w : MapWorld) (zone : Zone) (coords : IVec3) : Option Sprite :=
  (w.tiles.find? fun t => decide (t.zone = zone ∧ t.coords = coords)).map
    fun t => t.sprite

/-- The checked write `map[row][col] = c`: Rust `Vec` indexing panics when
an index is out of bounds, modelled as `none`. -/
def gridSet (g : List (List Char)) (row col : Nat) (c : Char) :
    Option (List (List Char)) :=
  match g.get? row with
  | none => none
  | some r => if col < r.length then some (g.set row (r.set col c)) else none

/-- The inclusive integer range `a..=b` as a list. -/
def intRangeIncl (a b : Int) : List Int :=
  (List.range (b - a + 1).toNat).map fun i => a + (i : Int)

/-- The body of one map command after the requester is resolved: a
64×16 buffer of spaces, then the double loop
`for x in start_x..=end_x { for y in start_y..=end_y { .. } }` writing
`@` at the requester and the first sprite character wherever a tile
exists; finally the rows are joined by newlines under the zone name.
`none` models an out-of-bounds panic inside the loop. -/
def mapRun (w : MapWorld) (pos : Position) : Option String :=
  let width : Nat := 64
  let height : Nat := 16
  let g0 := List.replicate height (List.replicate width ' ')
  let startX := pos.coords.x - ((width : Int) / 2)
  let endX := pos.coords.x + ((width : Int) / 2)
  let startY := pos.coords.y - ((height : Int) / 2)
  let endY := pos.coords.y + ((height : Int) / 2)
  let stepped := (intRangeIncl startX endX).foldlM
    (fun g x => (intRangeIncl startY endY).foldlM
      (fun g y =>
        if x = pos.coords.x ∧ y = pos.coords.y then
          gridSet g (y - startY).toNat (x - startX).toNat '@'
        else
          match mapTileAt w pos.zone ⟨x, y, pos.coords.z⟩ with
          | some sprite =>
            gridSet g (y - startY).toNat (x - startX).toNat
              (headCharOr sprite.character ' ')
          | none => some g)
      g)
    g0
  stepped.map fun g =>
    zoneToString pos.zone ++ "\n"
      ++ String.intercalate "\n" (g.map fun row => String.mk row)

/-! ## Concrete fixtures used by witnesses and counterexamples -/

/-- A character whose role carries the permission bit used below. -/
def fixAdmin : Character := ⟨0, "admin", 4, ⟨false⟩⟩

/-- A character with an empty role bitmask. -/
def fixPlayer : Character := ⟨0, "player", 0, ⟨false⟩⟩

/-- The origin position of zone `void`. -/
def fixPos : Position := ⟨Zone.void, ⟨0, 0, 0⟩⟩

/-- A takable stick with a short name and no tags. -/
def stickItem : Item := ⟨"stick", "st", []⟩

/-- A takable rock. -/
def rockItem : Item := ⟨"rock", "ro", []⟩

/-- A tile with two sticks (entities 10 and 11), a rock (12) and one
non-item child (99); the requester's inventory starts empty. -/
def takeFixWorld : TakeWorld :=
  ⟨[10, 11, 12, 99], [(10, stickItem), (11, stickItem), (12, rockItem)], []⟩

/-- A takable stick whose only tag is `Weapon`, capitalized. -/
def c3item : Item := ⟨"stick", "st", ["Weapon"]⟩

/-- A tile holding only the `Weapon`-tagged stick. -/
def c3world : TakeWorld := ⟨[10], [(10, c3item)], []⟩

/-- Map world with one tile on the column 65 spots west and 8 south of
the requester at the origin: inside the loop's inclusive range, outside
the 64×16 buffer. -/
def c1world : MapWorld := ⟨[⟨Zone.void, ⟨-32, 8, 0⟩, ⟨"#"⟩⟩]⟩

/-- Look world: client 1 stands on the only tile; client 9 is not
connected. -/
def c2world : LookWorld :=
  ⟨[(1, fixPos)], [⟨Zone.void, ⟨0, 0, 0⟩, ⟨"Forest", "Trees."⟩, ⟨"T"⟩⟩]⟩

/-- Movement fixture: player entity 100 (client 1) parented to tile 50 at
the void origin; tile 51 lies one step south. -/
def movFixPlayer : MovPlayer := ⟨100, 1, fixAdmin, 50⟩

/-- The origin tile of the movement fixture. -/
def movFixTileA : MovTile := ⟨50, ⟨Zone.void, ⟨0, 0, 0⟩⟩, ⟨"A", "a"⟩, ⟨"."⟩⟩

/-- The southern tile of the movement fixture. -/
def movFixTileB : MovTile := ⟨51, ⟨Zone.void, ⟨0, 1, 0⟩⟩, ⟨"B", "b"⟩, ⟨"#"⟩⟩

/-- The movement fixture world. -/
def movFixWorld : MovWorld := ⟨[movFixPlayer], [movFixTileA, movFixTileB]⟩

/-- Enter fixture for the error branches: the requester's tile owns no
children at all. -/
def enterFix9World : EnterWorld :=
  ⟨[(1, fixPos)], [⟨fixPos, ⟨"Void", "v"⟩, ⟨"."⟩, none⟩], []⟩

/-- A transition (entity 5) leading to coordinates where no tile exists. -/
def c10trans : Transition := ⟨[], Zone.movement, ⟨9, 9, 9⟩⟩

/-- Enter fixture for the missing-destination branch: the requester's
tile owns transition 5, whose destination tile does not exist. -/
def enterFix10World : EnterWorld :=
  ⟨[(1, fixPos)], [⟨fixPos, ⟨"Void", "v"⟩, ⟨"."⟩, some [5]⟩], [(5, c10trans)]⟩

/-! ## Theorems -/

/-- Any region string other than `movement` and `void` resolves to the
fallback zone. -/
theorem zoneForName_eq_void (r : String) (h2 : r ≠ "movement")
    (h3 : r ≠ "void") : zoneForName r = Zone.void := by
  unfold zoneForName
  split <;> simp_all

/-- C1: the map executor's double loop is inclusive on both ends
(65 columns × 17 rows) while the buffer is 64×16, so with a tile on the
boundary of the scanned area the write indexes out of bounds and the
process panics (modelled as `none`), contradicting the claim that grid
writes always stay within the fixed 64×16 buffer. -/
theorem map_inclusive_range_panics : mapRun c1world fixPos = none := by decide

/-- C2: in the look executor of `spatial/commands.rs`, a failed player
lookup executes `return`, ending the whole per-tick drain: with a queue
holding a message from unknown client 9 followed by one from connected
client 1, nothing at all is sent, although the same queue holding only
client 1's message produces its response. -/
theorem look_return_drops_queue :
    lookLoop c2world [9, 1] = []
      ∧ lookLoop c2world [1] =
          [(1, view_for_tile_basic ⟨"Forest", "Trees."⟩ ⟨"T"⟩)] := by
  constructor <;> decide

/-- C4: an authorized teleport sets the coordinates to the parsed values
unconditionally (no tile lookup exists in the system), keeps the zone on
`here`, maps a recognized zone name to its zone, and maps any
unrecognized name to the fallback zone `void`. -/
theorem teleport_sets_zone_and_coords (mask : Int) (c : Character)
    (pos : Position) (region : String) (x y z : Int)
    (h : c.can mask = true) :
    ((teleportRun mask c pos region x y z).1.coords = ⟨x, y, z⟩)
      ∧ (region = "here" →
          (teleportRun mask c pos region x y z).1.zone = pos.zone)
      ∧ (region = "movement" →
          (teleportRun mask c pos region x y z).1.zone = Zone.movement)
      ∧ (region = "void" →
          (teleportRun mask c pos region x y z).1.zone = Zone.void)
      ∧ (region ≠ "here" → region ≠ "movement" → region ≠ "void" →
          (teleportRun mask c pos region x y z).1.zone = Zone.void) := by
  refine ⟨?_, ?_, ?_, ?_, ?_⟩
  · simp [teleportRun, h]
  · intro hr; subst hr; simp [teleportRun, h]
  · intro hr; subst hr; simp [teleportRun, h, zoneForName]
  · intro hr; subst hr; simp [teleportRun, h, zoneForName]
  · intro h1 h2 h3
    simp [teleportRun, h, h1, zoneForName_eq_void region h2 h3]

/-- Witness for C4 at a concrete authorized character and command. -/
theorem teleport_sets_zone_and_coords_witness :
    fixAdmin.can 4 = true
      ∧ (teleportRun 4 fixAdmin fixPos "here" 1 2 3).1.coords = ⟨1, 2, 3⟩ :=
  ⟨by decide,
    (teleport_sets_zone_and_coords 4 fixAdmin fixPos "here" 1 2 3 (by decide)).1⟩

/-- C5: when the role bitmask does not carry every bit of the teleport
mask, the command leaves the position untouched and produces no response
text. -/
theorem teleport_denied_no_change (mask : Int) (c : Character)
    (pos : Position) (region : String) (x y z : Int)
    (h : Int.land c.role mask ≠ mask) :
    teleportRun mask c pos region x y z = (pos, none) := by
  have hcan : c.can mask = false := by
    simp [Character.can, h]
  simp [teleportRun, hcan]

/-- Witness for C5: role 0 never satisfies mask 1. -/
theorem teleport_denied_no_change_witness :
    Int.land fixPlayer.role 1 ≠ 1
      ∧ teleportRun 1 fixPlayer fixPos "void" 1 2 3 = (fixPos, none) :=
  ⟨by decide, teleport_denied_no_change 1 fixPlayer fixPos "void" 1 2 3 (by decide)⟩

/-- C6: with the requester and their parent tile resolved and the
direction recognized, a missing destination tile answers exactly
`You can't go that way.` and changes nothing, while an existing
destination reparents the requester into it and answers with that tile's
rendered view. -/
theorem movement_blocked_or_moves (w : MovWorld) (cid : ClientId)
    (direction : String) (p : MovPlayer) (ptile : MovTile) (off : IVec3)
    (h1 : movFindPlayer w cid = some p)
    (h2 : movTileByEntity w p.parent = some ptile)
    (h3 : offset_for_direction direction = some off) :
    (movTileAt w ptile.position.zone (ptile.position.coords + off) = none →
        movementRun w cid direction = (w, [(cid, "You can't go that way.")]))
      ∧ (∀ dest,
          movTileAt w ptile.position.zone (ptile.position.coords + off) = some dest →
          movementRun w cid direction =
            (movSetParent w p.entity dest.entity,
              [(cid, view_for_tile dest.tile dest.sprite p.character.config.brief)])) := by
  constructor
  · intro hnone
    simp [movementRun, h1, h2, h3, hnone]
  · intro dest hdest
    simp [movementRun, h1, h2, h3, hdest]

/-- Witness for C6: both branches at the concrete movement fixture, a
step south onto the existing tile 51 and a step north into nothing. -/
theorem movement_blocked_or_moves_witness :
    movementRun movFixWorld 1 "south" =
        (movSetParent movFixWorld 100 51,
          [(1, view_for_tile ⟨"B", "b"⟩ ⟨"#"⟩ false)])
      ∧ movementRun movFixWorld 1 "north" =
          (movFixWorld, [(1, "You can't go that way.")]) :=
  ⟨(movement_blocked_or_moves movFixWorld 1 "south" movFixPlayer movFixTileA
      ⟨0, 1, 0⟩ (by decide) (by decide) (by decide)).2 movFixTileB (by decide),
    (movement_blocked_or_moves movFixWorld 1 "north" movFixPlayer movFixTileA
      ⟨0, -1, 0⟩ (by decide) (by decide) (by decide)).1 (by decide)⟩

/-- C7: when at least one takable item matches, the plain command moves
exactly the first match in containment iteration order into the
inventory and leaves every other tile child in place, while `all` moves
exactly the matching items and leaves every non-matching child in
place. -/
theorem take_first_or_all (w : TakeWorld) (target : String) (e : EntityId)
    (i : Item) (rest : List (EntityId × Item))
    (h : takeItemsFound w target = (e, i) :: rest) :
    ((takeRun w target false).1.invChildren = w.invChildren ++ [e]
        ∧ (takeRun w target false).1.tileChildren =
            w.tileChildren.filter fun s => !([e].contains s))
      ∧ ((takeRun w target true).1.invChildren =
            w.invChildren ++ ((e, i) :: rest).map (fun x => x.1)
        ∧ (takeRun w target true).1.tileChildren =
            w.tileChildren.filter fun s =>
              !((((e, i) :: rest).map fun x => x.1).contains s)) := by
  refine ⟨⟨?_, ?_⟩, ⟨?_, ?_⟩⟩ <;> simp [takeRun, h] <;> split <;> simp

/-- Witness for C7 on the two-sticks-and-a-rock fixture. -/
theorem take_first_or_all_witness :
    takeItemsFound takeFixWorld "stick" = (10, stickItem) :: [(11, stickItem)]
      ∧ (takeRun takeFixWorld "stick" false).1.invChildren =
          takeFixWorld.invChildren ++ [10] :=
  ⟨by decide,
    ((take_first_or_all takeFixWorld "stick" 10 stickItem [(11, stickItem)]
      (by decide)).1).1⟩

/-- C8: when no takable item matches the target, the response is exactly
the not-found text and both the tile's children and the inventory are
unchanged. -/
theorem take_miss_no_mutation (w : TakeWorld) (target : String) (all : Bool)
    (h : takeItemsFound w target = []) :
    takeRun w target all = (w, "You don't see a " ++ target ++ " here.") := by
  have hfilter : (w.tileChildren.filter fun s =>
      !((([] : List (EntityId × Item)).map fun x => x.1).contains s)) = w.tileChildren :=
    List.filter_eq_self.mpr fun a _ => rfl
  cases all <;>
    simp_all [takeRun, h, item_name_list, dedupNames, naturalJoin]

/-- Witness for C8: `take sword` over the stick-and-rock fixture. -/
theorem take_miss_no_mutation_witness :
    takeItemsFound takeFixWorld "sword" = []
      ∧ takeRun takeFixWorld "sword" true =
          (takeFixWorld, "You don't see a sword here.") :=
  ⟨by decide, take_miss_no_mutation takeFixWorld "sword" true (by decide)⟩

/-- C9: with the requester and their tile resolved, a tile owning no
transitions answers exactly `There is nowhere to enter from here.`, and
a supplied target matching no owned transition's tags answers exactly
`Could not find entrance.`; in both cases the whole world — the
requester's zone and coordinates included — is unchanged. -/
theorem enter_error_branches (w : EnterWorld) (cid : ClientId)
    (target : Option String) (pr : ClientId × Position) (tile : EnterTile)
    (h1 : w.players.find? (fun p => p.1 == cid) = some pr)
    (h2 : enterTileAt w pr.2.zone pr.2.coords = some tile) :
    (transitionsOf w tile = [] →
        enterRun w cid target =
          (w, [(cid, "There is nowhere to enter from here.")]))
      ∧ (transitionsOf w tile ≠ [] →
          enterSelect (transitionsOf w tile) target = none →
          enterRun w cid target = (w, [(cid, "Could not find entrance.")])) := by
  constructor
  · intro hts
    simp [enterRun, h1, h2, hts]
  · intro hne hsel
    simp [enterRun, h1, h2, List.isEmpty_eq_false.mpr hne, hsel]

/-- Witness for C9: the no-transition branch on a tile without children,
after resolving client 1 and their tile. -/
theorem enter_error_branches_witness :
    enterFix9World.players.find? (fun p => p.1 == 1) = some (1, fixPos)
      ∧ enterRun enterFix9World 1 (some "riddle") =
          (enterFix9World, [(1, "There is nowhere to enter from here.")]) :=
  ⟨by decide,
    (enter_error_branches enterFix9World 1 (some "riddle") (1, fixPos)
      ⟨fixPos, ⟨"Void", "v"⟩, ⟨"."⟩, none⟩ (by decide) (by decide)).1 (by decide)⟩

/-- C10: when the selected transition's destination has no tile, the
enter command is dropped silently: no text is sent and the world — the
requester's position included — is unchanged. -/
theorem enter_missing_dest_silent (w : EnterWorld) (cid : ClientId)
    (target : Option String) (pr : ClientId × Position) (tile : EnterTile)
    (tr : Transition)
    (h1 : w.players.find? (fun p => p.1 == cid) = some pr)
    (h2 : enterTileAt w pr.2.zone pr.2.coords = some tile)
    (h3 : enterSelect (transitionsOf w tile) target = some tr)
    (h4 : enterTileAt w tr.zone tr.coords = none) :
    enterRun w cid target = (w, []) := by
  have hne : transitionsOf w tile ≠ [] := by
    intro hempty
    rw [hempty] at h3
    simp [enterSelect] at h3
  simp [enterRun, h1, h2, List.isEmpty_eq_false.mpr hne, h3, h4]

/-- Witness for C10: entering through transition 5, whose destination
tile does not exist. -/
theorem enter_missing_dest_silent_witness :
    enterSelect (transitionsOf enterFix10World
        ⟨fixPos, ⟨"Void", "v"⟩, ⟨"."⟩, some [5]⟩) none = some c10trans
      ∧ enterTileAt enterFix10World c10trans.zone c10trans.coords = none
      ∧ enterRun enterFix10World 1 none = (enterFix10World, []) :=
  ⟨by decide, by decide,
    enter_missing_dest_silent enterFix10World 1 none (1, fixPos)
      ⟨fixPos, ⟨"Void", "v"⟩, ⟨"."⟩, some [5]⟩ c10trans
      (by decide) (by decide) (by decide) (by decide)⟩

/-- C3 counterexample: the user types `take weapon`, so the parsed target
is `weapon`; the only item on the tile is takable and its tag list
contains that target in another letter casing (`Weapon`), yet the take
executor matches nothing: it answers the not-found text and moves
nothing, refuting case-insensitive tag matching. -/
theorem take_tag_not_case_insensitive :
    parseTakeTarget "weapon" = "weapon"
      ∧ c3item.tags = ["Weapon"]
      ∧ lowercase "Weapon" = "weapon"
      ∧ takeRun c3world "weapon" false =
          (c3world, "You don't see a weapon here.") := by
  refine ⟨by decide, by decide, by decide, ?_⟩
  decide

/-- C3 amended: take matching is case-insensitive on item name and short
name (the executor lowercases both before comparing with the lowercased
target), but tag matching is verbatim: a takable item is moved off a
tile it alone occupies exactly when its lowercased name or lowercased
short name equals the target, or its tag list contains the target
string itself; and the enter executor selects a sole transition under a
supplied target exactly when the transition's tag list contains the
trimmed target verbatim. -/
theorem take_enter_matching_exact_tags :
    (∀ (i : Item) (e : EntityId) (inv : List EntityId) (target : String),
        (takeRun ⟨[e], [(e, i)], inv⟩ target false).1.invChildren = inv ++ [e]
          ↔ (lowercase i.name = target ∨ lowercase i.short_name = target
              ∨ target ∈ i.tags))
      ∧ (∀ (tr : Transition) (tag : String),
          (enterSelect [tr] (some tag)).isSome = true ↔ tag ∈ tr.tags) := by
  constructor
  · intro i e inv target
    have hiff : takeMatch i target = true ↔
        (lowercase i.name = target ∨ lowercase i.short_name = target
          ∨ target ∈ i.tags) := by
      simp [takeMatch, or_assoc]
    by_cases hm : takeMatch i target = true
    · have hfound : takeItemsFound ⟨[e], [(e, i)], inv⟩ target = [(e, i)] := by
        simp [takeItemsFound, hm]
      have hinv : (takeRun ⟨[e], [(e, i)], inv⟩ target false).1.invChildren
          = inv ++ [e] := by
        simp [takeRun, hfound]
        split <;> simp
      rw [hinv]
      simp [hiff.mp hm]
    · have hm' : takeMatch i target = false := by
        exact Bool.not_eq_true _ ▸ eq_false_of_ne_true hm
      have hfound : takeItemsFound ⟨[e], [(e, i)], inv⟩ target = [] := by
        simp [takeItemsFound, hm']
      have hinv : (takeRun ⟨[e], [(e, i)], inv⟩ target false).1.invChildren
          = inv := by
        simp [takeRun, hfound]
        split <;> simp
      rw [hinv]
      constructor
      · intro habs
        simp at habs
      · intro hmatch
        exact absurd (hiff.mpr hmatch) hm
  · intro tr tag
    by_cases hc : tag ∈ tr.tags <;> simp [enterSelect, hc]
